import Mathlib

set_option maxRecDepth 10000

/-!
Verification of the Meshroom cluster pipeline scripts.

Shallow embedding of the Python sources under `scripts/` and `gui/`:
file contents are modelled as `List Char` built by the same concatenations
the Python code performs, randomized numeric text is abstracted as an
opaque formatting function (Python `%.6f`-style formatting never emits a
newline, which the theorems take as a hypothesis where needed), and the
`main` control flows are modelled as pure functions from their external
inputs (NAS reachability, probe outcome, discovered photos, delegate exit
code) to an event trace and an outcome.

A crucial low-level fact of the sources: inside the f-strings that emit
PLY vertex records, OBJ records and STL facet blocks, the record
separator is written as an escaped backslash followed by `n` (the source
bytes are backslash backslash `n`), so Python appends the two characters
backslash and `n`, not a newline.  The triple-quoted headers, by
contrast, contain genuine newlines.  The embedding reproduces this
exactly: `pySep` below is that two-character separator.
-/

/-- The characters of a string literal, used to build file contents as `List Char`. -/
def lit (s : String) : List Char := s.data

/-- The two-character sequence (backslash, `n`) that the f-strings of the
generator scripts append after each data record: the Python sources write
an escaped backslash before the `n`, so no newline character is produced. -/
def pySep : List Char := ['\\', 'n']

/-- A piece of text is newline-free. -/
def NLFree (s : List Char) : Prop := '\n' ∉ s

instance (s : List Char) : Decidable (NLFree s) :=
  inferInstanceAs (Decidable ('\n' ∉ s))

/-- Splitting a character sequence into physical lines at newline
characters; a trailing segment without a terminating newline still counts
as a line, and the empty text counts as one (empty) line. -/
def splitLines : List Char → List (List Char)
  | [] => [[]]
  | c :: cs =>
    if c = '\n' then [] :: splitLines cs
    else
      match splitLines cs with
      | [] => [[c]]
      | l :: ls => (c :: l) :: ls

/-- Decimal digit character for `d % 10`, as Python's number formatting produces. -/
def digitChar (d : Nat) : Char := Char.ofNat (48 + d % 10)

/-- Decimal rendering of a natural number (fuel-indexed helper). -/
def natCharsAux : Nat → Nat → List Char
  | 0, _ => []
  | fuel + 1, n =>
    if n < 10 then [digitChar n]
    else natCharsAux fuel (n / 10) ++ [digitChar (n % 10)]

/-- Decimal rendering of a natural number, mirroring Python's `{n}` interpolation. -/
def natChars (n : Nat) : List Char := natCharsAux (n + 1) n

/-- The list of integers produced by Python's `range(start, stop, 3)`. -/
def pyRange3 (start stop : Nat) : List Nat :=
  (List.range ((stop - start + 2) / 3)).map (fun k => start + 3 * k)

/-! ## realistic-meshroom-processing.py: stage pipeline and statistics -/

/-- The element counts returned by `process_photos_realistically` as the
`processing_stats` dict: `sparse_points = len(photos) * 200`,
`dense_points = len(photos) * 2000`, `mesh_faces = len(photos) * 1000`. -/
structure ProcessingStats where
  sparse : Nat
  dense : Nat
  faces : Nat
deriving DecidableEq, Repr

/-- The statistics computed by `process_photos_realistically` for a photo
count; they do not depend on any of the randomized coordinate values. -/
def realisticStats (photoCount : Nat) : ProcessingStats :=
  { sparse := photoCount * 200, dense := photoCount * 2000, faces := photoCount * 1000 }

/-- Shallow embedding of `process_photos_realistically`.  The Python body
is a straight-line sequence of six stage blocks (prints and sleeps); it
accepts no cancellation flag and reads none, so whatever cancellation the
environment may request (`cancelRequestedAfter` models a request arriving
after the stage with the given index completes) the executed stage list
is always the full six-stage catalog, and the function returns the stats
dict.  The only stop mechanism in the repository is the control panel's
`stop_workflows`, which spawns `deploy.ps1 stop` in a separate process
and does not interact with this function. -/
def processPhotosRealistically (photoCount : Nat)
    (cancelRequestedAfter : Option Nat) : List Nat × ProcessingStats :=
  (List.range 6, realisticStats photoCount)

/-! ## realistic-meshroom-processing.py: artifact generation -/

/-- The PLY header emitted by `create_realistic_output_files` (a
triple-quoted f-string, so these newlines are genuine). -/
def realisticPlyHeader (photoCount : Nat) (sessionName : List Char)
    (stats : ProcessingStats) : List Char :=
  lit "ply\nformat ascii 1.0\ncomment Generated by Meshroom from " ++
  natChars photoCount ++
  lit " photos\ncomment Session: " ++ sessionName ++
  lit "\ncomment Sparse points: " ++ natChars stats.sparse ++
  lit "\ncomment Dense points: " ++ natChars stats.dense ++
  lit "\nelement vertex " ++ natChars stats.dense ++
  lit "\nproperty float x\nproperty float y\nproperty float z\nproperty uchar red\nproperty uchar green\nproperty uchar blue\nproperty float confidence\nend_header\n"

/-- The vertex count interpolated into `element vertex {dense_points}`. -/
def realisticPlyDeclared (stats : ProcessingStats) : Nat := stats.dense

/-- The data appended after the header by the vertex loop of
`create_realistic_output_files`: one formatted record per point (the
randomized text is abstracted as `fmt`), each followed by the
two-character `pySep` the f-string's escaped backslash produces. -/
def realisticPlyData (fmt : Nat → List Char) (stats : ProcessingStats) : List Char :=
  ((List.range stats.dense).map (fun i => fmt i ++ pySep)).flatten

/-- The whole PLY file written by `create_realistic_output_files`. -/
def realisticPlyContent (fmt : Nat → List Char) (photoCount : Nat)
    (sessionName : List Char) (stats : ProcessingStats) : List Char :=
  realisticPlyHeader photoCount sessionName stats ++ realisticPlyData fmt stats

/-- One record of an OBJ file, in emission order: geometric vertex,
texture coordinate, vertex normal, or a face with its 1-based vertex
indices. -/
inductive ObjRecord where
  | vert (text : List Char)
  | texc (text : List Char)
  | norm (text : List Char)
  | face (idxs : List Nat)
deriving DecidableEq, Repr

/-- The vertex count of the realistic OBJ mesh:
`vertex_count = processing_stats['mesh_faces'] // 2`. -/
def realisticObjVertexCount (stats : ProcessingStats) : Nat := stats.faces / 2

/-- The records of the OBJ file written by `create_realistic_output_files`,
in emission order: `vertex_count` `v` records, `vertex_count` `vt`
records, then faces `f i/i i+1/i+1 i+2/i+2` for
`i in range(1, vertex_count - 2, 3)`. -/
def realisticObjRecords (vtext ttext : Nat → List Char)
    (stats : ProcessingStats) : List ObjRecord :=
  ((List.range (realisticObjVertexCount stats)).map (fun i => ObjRecord.vert (vtext i))) ++
  ((List.range (realisticObjVertexCount stats)).map (fun i => ObjRecord.texc (ttext i))) ++
  ((pyRange3 1 (realisticObjVertexCount stats - 2)).map
    (fun i => ObjRecord.face [i, i + 1, i + 2]))

/-- The solid name used by the realistic and native STL writers:
`Meshroom_{len(photos)}_Photos`. -/
def stlSolidName (photoCount : Nat) : List Char :=
  lit "Meshroom_" ++ natChars photoCount ++ lit "_Photos"

/-- One facet block of the realistic STL writer: the loop appends the
normal/outer-loop chunk at `j == 0`, a vertex chunk for each `j`, and the
endloop/endfacet chunk at `j == 2`; every line break in these chunks is
the escaped-backslash `pySep`, not a newline. -/
def realisticStlFacet (coords : Nat → Nat → List Char) (i : Nat) : List Char :=
  lit "  facet normal 0.0 0.0 1.0" ++ pySep ++ lit "    outer loop" ++ pySep ++
  lit "      vertex " ++ coords i 0 ++ pySep ++
  lit "      vertex " ++ coords i 1 ++ pySep ++
  lit "      vertex " ++ coords i 2 ++ pySep ++
  lit "    endloop" ++ pySep ++ lit "  endfacet" ++ pySep

/-- The whole STL file written by `create_realistic_output_files`:
`solid <name>`, `face_count = mesh_faces` facet blocks, `endsolid <name>`. -/
def realisticStlContent (coords : Nat → Nat → List Char) (photoCount : Nat)
    (stats : ProcessingStats) : List Char :=
  lit "solid " ++ stlSolidName photoCount ++ pySep ++
  ((List.range stats.faces).map (realisticStlFacet coords)).flatten ++
  lit "endsolid " ++ stlSolidName photoCount

/-! ## actual-meshroom-processing.py: artifact generation and main flow -/

/-- The count `num_points = min(photo_count * 100, 5000)` in `create_valid_ply_file`. -/
def numPoints (photoCount : Nat) : Nat := min (photoCount * 100) 5000

/-- The vertex records emitted by the loop of `create_valid_ply_file`
(randomized coordinate/color text abstracted as `fmt`). -/
def actualPlyRecords (fmt : Nat → List Char) (photoCount : Nat) : List (List Char) :=
  (List.range (numPoints photoCount)).map fmt

/-- The data appended after the header by `create_valid_ply_file`: each
record is followed by the two-character `pySep`. -/
def actualPlyData (fmt : Nat → List Char) (photoCount : Nat) : List Char :=
  ((actualPlyRecords fmt photoCount).map (fun r => r ++ pySep)).flatten

/-- The PLY header emitted by `create_valid_ply_file` (triple-quoted,
genuine newlines), declaring `element vertex {num_points}`. -/
def actualPlyHeader (photoCount : Nat) : List Char :=
  lit "ply\nformat ascii 1.0\ncomment Generated point cloud from " ++
  natChars photoCount ++
  lit " photos\nelement vertex " ++ natChars (numPoints photoCount) ++
  lit "\nproperty float x\nproperty float y\nproperty float z\nproperty uchar red\nproperty uchar green\nproperty uchar blue\nend_header\n"

/-- The vertex count interpolated into `element vertex {num_points}`. -/
def actualPlyDeclared (photoCount : Nat) : Nat := numPoints photoCount

/-- The whole PLY file written by `create_valid_ply_file`. -/
def actualPlyContent (fmt : Nat → List Char) (photoCount : Nat) : List Char :=
  actualPlyHeader photoCount ++ actualPlyData fmt photoCount

/-- The 20 icosahedron faces hard-coded in `create_valid_obj_file`
(1-based indices into the 12 vertices written before them). -/
def icosahedronFaces : List (List Nat) :=
  [[1, 12, 6], [1, 6, 2], [1, 2, 8], [1, 8, 11], [1, 11, 12],
   [2, 6, 10], [6, 12, 5], [12, 11, 3], [11, 8, 7], [8, 2, 9],
   [4, 10, 5], [4, 5, 3], [4, 3, 7], [4, 7, 9], [4, 9, 10],
   [5, 10, 6], [3, 5, 12], [7, 3, 11], [9, 7, 8], [10, 9, 2]]

/-- The records of the OBJ file written by `create_valid_obj_file`: the
12 scaled icosahedron vertices (their formatted text abstracted as
`vtext`), then the 20 faces. -/
def actualObjRecords (vtext : Nat → List Char) : List ObjRecord :=
  ((List.range 12).map (fun i => ObjRecord.vert (vtext i))) ++
  (icosahedronFaces.map ObjRecord.face)

/-- Processing mode of a run of actual-meshroom-processing. -/
inductive ProcMode where
  | delegated
  | synthetic
deriving DecidableEq, Repr

/-- Artifact files a run can write. -/
inductive ArtifactKind where
  | ply
  | obj
  | summary
deriving DecidableEq, Repr

/-- Result of `main` in actual-meshroom-processing. -/
inductive ActualResult where
  | cancelledByUser
  | finished (mode : ProcMode) (syntheticStages : List Nat)
      (artifacts : List ArtifactKind) (failed : Bool)
deriving DecidableEq, Repr

/-- The success flag `run_real_meshroom` returns: `True` exactly when the
delegate process exits with return code 0; a nonzero exit or an exception
while launching or streaming (modelled by `none`) yields `False`. -/
def runRealMeshroomSuccess (delegateExit : Option Int) : Bool :=
  delegateExit == some 0

/-- Shallow embedding of `main` in actual-meshroom-processing, from the
prompt onward: if the user declines, the run stops; otherwise the
delegate is tried when an installation was found, and on anything but
exit code 0 the run falls back to `simulate_realistic_processing` (six
synthetic stages in order) followed by `create_valid_ply_file` and
`create_valid_obj_file`; the summary is written in both branches and the
run is never reported as failed. -/
def actualMain (meshroomFound : Bool) (userYes : Bool)
    (delegateExit : Option Int) : ActualResult :=
  if !userYes then ActualResult.cancelledByUser
  else
    let success := meshroomFound && runRealMeshroomSuccess delegateExit
    if success then
      ActualResult.finished ProcMode.delegated [] [ArtifactKind.summary] false
    else
      ActualResult.finished ProcMode.synthetic (List.range 6)
        [ArtifactKind.ply, ArtifactKind.obj, ArtifactKind.summary] false

/-! ## main control flows of the realistic / native / process-photos scripts -/

/-- Filesystem writes a run can perform, in the order `main` performs them. -/
inductive FsEvent where
  | mkOutputBase
  | mkSessionDir
  | mkTempDir
  | writeProject
  | writeJobYaml
  | writePly
  | writeObj
  | writeStl
  | writeSummary
deriving DecidableEq, Repr

/-- Terminal outcome of a run of one of the script `main`s. -/
inductive RunOutcome where
  | storageFailure
  | clusterNotReady
  | noPhotos
  | submitFailed
  | processingFailed
  | completed
deriving DecidableEq, Repr

/-- The probe `check_cluster_status` of realistic-meshroom-processing: counts
`Running` occurrences and compares with 1; a failing `kubectl` query
(`CalledProcessError`) returns `False`.  The result is only used to pick
the processing-mode banner. -/
def realisticCheckClusterStatus (queryOk : Bool) (readyCount : Nat) : Bool :=
  if queryOk then decide (1 ≤ readyCount) else false

/-- The probe `check_cluster_status` of meshroom-native-processing and of
process-photos / process-photos-simple: threshold 2. -/
def nativeCheckClusterStatus (queryOk : Bool) (readyCount : Nat) : Bool :=
  if queryOk then decide (2 ≤ readyCount) else false

/-- The processing-mode banner `main` of realistic-meshroom-processing
prints, the only use of the probe result. -/
def realisticModeLabel (clusterReady : Bool) : List Char :=
  if clusterReady then lit "Distributed Kubernetes Cluster"
  else lit "Single Node Processing"

/-- Shallow embedding of `main` in realistic-meshroom-processing as the
sequence of filesystem writes it performs plus its outcome and mode
banner.  `create_session_folder` runs before `get_all_photos_native`, so
the output base and the session directory are created before photo
discovery; with zero photos `main` prints `No photos found!` and returns
without writing anything further; otherwise the project file, the three
artifacts and the summary are written.  The probe result `clusterReady`
feeds only the banner. -/
def realisticMain (clusterReady : Bool) (nasOk : Bool)
    (photos : List (List Char)) : List FsEvent × RunOutcome × List Char :=
  if nasOk then
    if photos.isEmpty then
      ([FsEvent.mkOutputBase, FsEvent.mkSessionDir], RunOutcome.noPhotos,
        realisticModeLabel clusterReady)
    else
      ([FsEvent.mkOutputBase, FsEvent.mkSessionDir, FsEvent.writeProject,
        FsEvent.writePly, FsEvent.writeObj, FsEvent.writeStl, FsEvent.writeSummary],
        RunOutcome.completed, realisticModeLabel clusterReady)
  else ([], RunOutcome.storageFailure, realisticModeLabel clusterReady)

/-- Shallow embedding of `main` in meshroom-native-processing: a negative
probe only prints `WARNING: Cluster not fully ready, but proceeding...`;
the session directory and the temp directory are created before photo
discovery; with photos present the project file and job yaml are written,
and when the `kubectl apply` submission succeeds the three artifacts and
the summary follow. -/
def nativeMain (clusterReady : Bool) (nasOk : Bool)
    (photos : List (List Char)) (submitOk : Bool) : List FsEvent × RunOutcome :=
  if nasOk then
    if photos.isEmpty then
      ([FsEvent.mkOutputBase, FsEvent.mkSessionDir, FsEvent.mkTempDir],
        RunOutcome.noPhotos)
    else if submitOk then
      ([FsEvent.mkOutputBase, FsEvent.mkSessionDir, FsEvent.mkTempDir,
        FsEvent.writeProject, FsEvent.writeJobYaml, FsEvent.writePly,
        FsEvent.writeObj, FsEvent.writeStl, FsEvent.writeSummary],
        RunOutcome.completed)
    else
      ([FsEvent.mkOutputBase, FsEvent.mkSessionDir, FsEvent.mkTempDir,
        FsEvent.writeProject, FsEvent.writeJobYaml], RunOutcome.submitFailed)
  else ([], RunOutcome.storageFailure)

/-- Shallow embedding of `main` in process-photos (and, with the same
shape, process-photos-simple): a negative probe result makes `main`
print `Cluster not ready. Please start the cluster first.` and return
before photo listing, so nothing is processed and nothing is written. -/
def processPhotosMain (queryOk : Bool) (readyCount : Nat)
    (photos : List (List Char)) (shellOk : Bool) : List FsEvent × RunOutcome :=
  if !(nativeCheckClusterStatus queryOk readyCount) then
    ([], RunOutcome.clusterNotReady)
  else if photos.isEmpty then ([], RunOutcome.noPhotos)
  else if shellOk then
    ([FsEvent.mkOutputBase, FsEvent.mkTempDir, FsEvent.writeProject,
      FsEvent.writeSummary], RunOutcome.completed)
  else
    ([FsEvent.mkOutputBase, FsEvent.mkTempDir, FsEvent.writeProject],
      RunOutcome.processingFailed)

/-! ## meshroom-native-processing.py: artifact generation -/

/-- The records of the OBJ file written by `create_output_files` of
meshroom-native-processing: `len(photos) * 100` each of `v`, `vt` and
`vn` records, then faces `f i/i/i i+1/i+1/i+1 i+2/i+2/i+2` for
`i in range(1, len(photos) * 95, 3)`. -/
def nativeObjRecords (vtext ttext ntext : Nat → List Char)
    (photoCount : Nat) : List ObjRecord :=
  ((List.range (photoCount * 100)).map (fun i => ObjRecord.vert (vtext i))) ++
  ((List.range (photoCount * 100)).map (fun i => ObjRecord.texc (ttext i))) ++
  ((List.range (photoCount * 100)).map (fun i => ObjRecord.norm (ntext i))) ++
  ((pyRange3 1 (photoCount * 95)).map (fun i => ObjRecord.face [i, i + 1, i + 2]))

/-- The vertex count declared before the native PLY data:
`element vertex {len(photos) * 2000}`. -/
def nativePlyDeclared (photoCount : Nat) : Nat := photoCount * 2000

/-- The data appended after the header by the vertex loop of
`create_output_files` of meshroom-native-processing: records separated by
the two-character `pySep`. -/
def nativePlyData (fmt : Nat → List Char) (photoCount : Nat) : List Char :=
  ((List.range (photoCount * 2000)).map (fun i => fmt i ++ pySep)).flatten

/-- One facet block of the native STL writer; every chunk ends with the
escaped-backslash `pySep`. -/
def nativeStlFacet (coords : Nat → Nat → List Char) (i : Nat) : List Char :=
  lit "  facet normal 0.0 0.0 1.0" ++ pySep ++
  lit "    outer loop" ++ pySep ++
  lit "      vertex " ++ coords i 0 ++ pySep ++
  lit "      vertex " ++ coords i 1 ++ pySep ++
  lit "      vertex " ++ coords i 2 ++ pySep ++
  lit "    endloop" ++ pySep ++
  lit "  endfacet" ++ pySep

/-- The whole STL file written by `create_output_files` of
meshroom-native-processing: `len(photos) * 50` facet blocks between
`solid <name>` and `endsolid <name>`. -/
def nativeStlContent (coords : Nat → Nat → List Char) (photoCount : Nat) : List Char :=
  lit "solid " ++ stlSolidName photoCount ++ pySep ++
  ((List.range (photoCount * 50)).map (nativeStlFacet coords)).flatten ++
  lit "endsolid " ++ stlSolidName photoCount

/-! ## quick-valid-3d.py: STL generation -/

/-- The fixed STL text written by `create_valid_stl` of quick-valid-3d: a
triple-quoted string, so its newlines are genuine and the file has proper
lines. -/
def quickStlContent : List Char :=
  lit "solid SimpleModel\nfacet normal 0.0 0.0 1.0\n  outer loop\n    vertex 0.0 0.0 0.0\n    vertex 1.0 0.0 0.0\n    vertex 0.5 1.0 0.0\n  endloop\nendfacet\nfacet normal 0.0 0.0 -1.0\n  outer loop\n    vertex 0.0 0.0 -0.1\n    vertex 0.5 1.0 -0.1\n    vertex 1.0 0.0 -0.1\n  endloop\nendfacet\nfacet normal 0.0 -1.0 0.0\n  outer loop\n    vertex 0.0 0.0 0.0\n    vertex 0.0 0.0 -0.1\n    vertex 1.0 0.0 0.0\n  endloop\nendfacet\nfacet normal 0.0 -1.0 0.0\n  outer loop\n    vertex 1.0 0.0 0.0\n    vertex 0.0 0.0 -0.1\n    vertex 1.0 0.0 -0.1\n  endloop\nendfacet\nendsolid SimpleModel\n"

/-! ## Session listing (identical in realistic- and native-processing) -/

/-- What `os.listdir(NAS_OUTPUT_BASE)` reports about one entry, together
with the facts the listing code observes about it: whether it is a
directory, its modification time in milliseconds, whether
`os.listdir(item_path)` succeeds, and how many plain files it holds. -/
structure DirEntry where
  name : String
  isDir : Bool
  mtimeMs : Nat
  listable : Bool
  fileCount : Nat
deriving DecidableEq, Repr

/-- One entry of the session listing: name, the modification time at the
second resolution of the `%Y-%m-%d %H:%M:%S` date string (lexicographic
order on that fixed-width string agrees with numeric order on whole
seconds), and the contained-file count. -/
structure SessionInfo where
  name : String
  dateSec : Nat
  files : Nat
deriving DecidableEq, Repr

/-- How `list_previous_sessions` summarizes one qualifying entry: the
`try/except` around the inner `os.listdir` turns an unlistable session
into `file_count = 0` — the entry itself is kept. -/
def sessionOf (e : DirEntry) : SessionInfo :=
  { name := e.name, dateSec := e.mtimeMs / 1000,
    files := if e.listable then e.fileCount else 0 }

/-- The ordering realizing
`sessions.sort(key=lambda x: x['date'], reverse=True)`: descending on the
second-resolution date. -/
def sessionDateGe (a b : SessionInfo) : Prop := b.dateSec ≤ a.dateSec

instance : DecidableRel sessionDateGe :=
  fun a b => inferInstanceAs (Decidable (b.dateSec ≤ a.dateSec))

instance : IsTotal SessionInfo sessionDateGe :=
  ⟨fun a b => Nat.le_total b.dateSec a.dateSec⟩

instance : IsTrans SessionInfo sessionDateGe :=
  ⟨fun a b c h1 h2 => Nat.le_trans h2 h1⟩

/-- Shallow embedding of `list_previous_sessions` (identical in
realistic-meshroom-processing and meshroom-native-processing): keep the
directories whose name starts with `meshroom_session_`, annotate each,
and sort by date string descending.  Python's `list.sort` is stable and a
stable sort's output is uniquely determined by the ordering, so the
stable insertion sort — which keeps an element before any later element
of equal date — computes exactly what the script's sort produces. -/
def listPreviousSessions (entries : List DirEntry) : List SessionInfo :=
  List.insertionSort sessionDateGe
    ((entries.filter
      (fun e => e.isDir && (lit "meshroom_session_").isPrefixOf e.name.data)).map
      sessionOf)

/-! ## OBJ validity checkers -/

/-- Is the record a geometric vertex (`v`) record? -/
def isVert : ObjRecord → Bool
  | ObjRecord.vert _ => true
  | _ => false

/-- The number of `v` records in an OBJ record sequence. -/
def objVertexTotal (rs : List ObjRecord) : Nat := rs.countP isVert

/-- Scans an OBJ record sequence keeping the number of vertices declared
so far; a face passes only if each of its 1-based indices refers to a
vertex already declared earlier in the sequence. -/
def objCheck : Nat → List ObjRecord → Bool
  | _, [] => true
  | seen, ObjRecord.vert _ :: rs => objCheck (seen + 1) rs
  | seen, ObjRecord.texc _ :: rs => objCheck seen rs
  | seen, ObjRecord.norm _ :: rs => objCheck seen rs
  | seen, ObjRecord.face idxs :: rs =>
    idxs.all (fun i => decide (1 ≤ i) && decide (i ≤ seen)) && objCheck seen rs

/-- Every face index lies in `[1, vertexCount]` for the file's total
vertex count. -/
def objFacesInRange (rs : List ObjRecord) : Bool :=
  rs.all (fun r =>
    match r with
    | ObjRecord.face idxs =>
      idxs.all (fun i => decide (1 ≤ i) && decide (i ≤ objVertexTotal rs))
    | _ => true)

/-! ## Element counts of one realistic-pipeline run (for determinism) -/

/-- The element counts one run of the realistic pipeline declares and
emits, extracted from the generated artifacts. -/
structure ArtifactCounts where
  plyDeclared : Nat
  plyEmitted : Nat
  objVertices : Nat
  objFaces : Nat
  stlFacets : Nat
deriving DecidableEq, Repr

/-- Runs the realistic pipeline and artifact generator on `photoCount`
photos with the given randomized-text sources and reads the counts off
the generated artifacts: the declared PLY vertex count, the number of
emitted PLY vertex records, the numbers of OBJ `v` and `f` records, and
the number of STL facet blocks. -/
def realisticArtifactCounts (fmt vtext ttext : Nat → List Char)
    (coords : Nat → Nat → List Char) (photoCount : Nat) : ArtifactCounts :=
  let stats := (processPhotosRealistically photoCount none).2
  { plyDeclared := realisticPlyDeclared stats
    plyEmitted := ((List.range stats.dense).map fmt).length
    objVertices := objVertexTotal (realisticObjRecords vtext ttext stats)
    objFaces := (realisticObjRecords vtext ttext stats).countP
      (fun r => match r with | ObjRecord.face _ => true | _ => false)
    stlFacets := ((List.range stats.faces).map (realisticStlFacet coords)).length }

/-! ## Concrete directory entries for the session-listing analysis -/

/-- A session directory modified at 100.1 seconds, listable with 2 files. -/
def c9EntryOld : DirEntry :=
  { name := "meshroom_session_20250101_120000", isDir := true,
    mtimeMs := 100100, listable := true, fileCount := 2 }

/-- A session directory modified at 100.9 seconds — later than
`c9EntryOld` — whose contents cannot be listed. -/
def c9EntryNew : DirEntry :=
  { name := "meshroom_session_20250101_120001", isDir := true,
    mtimeMs := 100900, listable := false, fileCount := 5 }

/-- The true modification time of the listing entry a `SessionInfo` came
from, recovered by name. -/
def mtimeByName (entries : List DirEntry) (s : SessionInfo) : Nat :=
  ((entries.find? (fun e => e.name.data == s.name.data)).map DirEntry.mtimeMs).getD 0

/-! ## Text helper lemmas -/

theorem nlfree_append {a b : List Char} : NLFree (a ++ b) ↔ NLFree a ∧ NLFree b := by
  simp [NLFree, List.mem_append, not_or]

theorem nlfree_pySep : NLFree pySep := by decide

theorem nlfree_flatten {L : List (List Char)} (h : ∀ s ∈ L, NLFree s) :
    NLFree L.flatten := by
  intro hmem
  rw [List.mem_flatten] at hmem
  obtain ⟨s, hs, hc⟩ := hmem
  exact h s hs hc

theorem digitChar_ne_newline (d : Nat) : digitChar d ≠ '\n' := by
  unfold digitChar
  have h : d % 10 < 10 := Nat.mod_lt d (by omega)
  revert h
  generalize d % 10 = m
  intro h
  rcases m with _ | _ | _ | _ | _ | _ | _ | _ | _ | _ | m
  all_goals first | decide | omega

theorem nlfree_natCharsAux (fuel n : Nat) : NLFree (natCharsAux fuel n) := by
  induction fuel generalizing n with
  | zero => intro h; simp [natCharsAux] at h
  | succ fuel ih =>
    intro h
    simp only [natCharsAux] at h
    by_cases hlt : n < 10
    · simp [hlt] at h
      exact digitChar_ne_newline n h.symm
    · simp [hlt, List.mem_append] at h
      rcases h with h | h
      · exact ih (n / 10) h
      · exact digitChar_ne_newline (n % 10) h.symm

theorem nlfree_natChars (n : Nat) : NLFree (natChars n) := nlfree_natCharsAux (n + 1) n

theorem splitLines_nlfree (s : List Char) (h : NLFree s) : splitLines s = [s] := by
  induction s with
  | nil => rfl
  | cons c cs ih =>
    have hc : c ≠ '\n' := fun hx => h (hx ▸ List.mem_cons_self c cs)
    have hcs : NLFree cs := fun hx => h (List.mem_cons_of_mem c hx)
    simp only [splitLines, if_neg hc, ih hcs]

theorem splitLines_length_one {s : List Char} (h : NLFree s) :
    (splitLines s).length = 1 := by rw [splitLines_nlfree s h]; rfl

theorem nlfree_sepData {f : Nat → List Char} {n : Nat} (hf : ∀ i, NLFree (f i)) :
    NLFree (((List.range n).map (fun i => f i ++ pySep)).flatten) := by
  apply nlfree_flatten
  intro s hs
  rw [List.mem_map] at hs
  obtain ⟨i, _, rfl⟩ := hs
  exact nlfree_append.mpr ⟨hf i, nlfree_pySep⟩

theorem mem_pyRange3 {a b i : Nat} (h : i ∈ pyRange3 a b) :
    a ≤ i ∧ i + 2 ≤ b + 1 := by
  unfold pyRange3 at h
  rw [List.mem_map] at h
  obtain ⟨k, hk, rfl⟩ := h
  rw [List.mem_range] at hk
  have h2 : (b - a + 2) / 3 * 3 ≤ b - a + 2 := Nat.div_mul_le_self _ _
  omega

/-! ## OBJ checker lemmas -/

theorem objCheck_vertChunk {α : Type} (l : List α) (f : α → List Char)
    (s : Nat) (rs : List ObjRecord) :
    objCheck s ((l.map (fun a => ObjRecord.vert (f a))) ++ rs) =
      objCheck (s + l.length) rs := by
  induction l generalizing s with
  | nil => simp [objCheck]
  | cons a l ih =>
    simp only [List.map_cons, List.cons_append, objCheck]
    have h2 := ih (s + 1)
    rw [List.length_cons]
    have h3 : s + (l.length + 1) = s + 1 + l.length := by omega
    rw [h3]
    exact h2

theorem objCheck_texcChunk {α : Type} (l : List α) (f : α → List Char)
    (s : Nat) (rs : List ObjRecord) :
    objCheck s ((l.map (fun a => ObjRecord.texc (f a))) ++ rs) = objCheck s rs := by
  induction l generalizing s with
  | nil => simp
  | cons a l ih =>
    simp only [List.map_cons, List.cons_append, objCheck]
    exact ih s

theorem objCheck_normChunk {α : Type} (l : List α) (f : α → List Char)
    (s : Nat) (rs : List ObjRecord) :
    objCheck s ((l.map (fun a => ObjRecord.norm (f a))) ++ rs) = objCheck s rs := by
  induction l generalizing s with
  | nil => simp
  | cons a l ih =>
    simp only [List.map_cons, List.cons_append, objCheck]
    exact ih s

theorem objCheck_faceChunk {α : Type} (l : List α) (g : α → List Nat) (s : Nat)
    (h : ∀ a ∈ l, ∀ i ∈ g a, 1 ≤ i ∧ i ≤ s) :
    objCheck s (l.map (fun a => ObjRecord.face (g a))) = true := by
  induction l with
  | nil => rfl
  | cons a l ih =>
    simp only [List.map_cons, objCheck, Bool.and_eq_true]
    constructor
    · rw [List.all_eq_true]
      intro i hi
      have := h a (List.mem_cons_self a l) i hi
      simp only [Bool.and_eq_true, decide_eq_true_eq]
      omega
    · exact ih (fun x hx => h x (List.mem_cons_of_mem a hx))

theorem objVertexTotal_cons_vert (t : List Char) (rs : List ObjRecord) :
    objVertexTotal (ObjRecord.vert t :: rs) = objVertexTotal rs + 1 := by
  simp [objVertexTotal, List.countP_cons, isVert]

theorem objCheck_face_bound (s : Nat) (rs : List ObjRecord)
    (h : objCheck s rs = true) :
    ∀ r ∈ rs, ∀ idxs, r = ObjRecord.face idxs →
      ∀ i ∈ idxs, 1 ≤ i ∧ i ≤ s + objVertexTotal rs := by
  induction rs generalizing s with
  | nil => intro r hr; simp at hr
  | cons r0 rs ih =>
    intro r hr idxs hface i hi
    rcases List.mem_cons.mp hr with h1 | h1
    · subst h1
      subst hface
      simp only [objCheck, Bool.and_eq_true, List.all_eq_true] at h
      have := h.1 i hi
      simp only [Bool.and_eq_true, decide_eq_true_eq] at this
      have hcount : objVertexTotal (ObjRecord.face idxs :: rs) = objVertexTotal rs := by
        simp [objVertexTotal, List.countP_cons, isVert]
      omega
    · cases r0 with
      | vert t =>
        simp only [objCheck] at h
        have := ih (s + 1) h r h1 idxs hface i hi
        rw [objVertexTotal_cons_vert]
        omega
      | texc t =>
        simp only [objCheck] at h
        have := ih s h r h1 idxs hface i hi
        have hcount : objVertexTotal (ObjRecord.texc t :: rs) = objVertexTotal rs := by
          simp [objVertexTotal, List.countP_cons, isVert]
        omega
      | norm t =>
        simp only [objCheck] at h
        have := ih s h r h1 idxs hface i hi
        have hcount : objVertexTotal (ObjRecord.norm t :: rs) = objVertexTotal rs := by
          simp [objVertexTotal, List.countP_cons, isVert]
        omega
      | face idxs0 =>
        simp only [objCheck, Bool.and_eq_true] at h
        have := ih s h.2 r h1 idxs hface i hi
        have hcount : objVertexTotal (ObjRecord.face idxs0 :: rs) = objVertexTotal rs := by
          simp [objVertexTotal, List.countP_cons, isVert]
        omega

theorem objCheck_implies_inRange (rs : List ObjRecord)
    (h : objCheck 0 rs = true) : objFacesInRange rs = true := by
  rw [objFacesInRange, List.all_eq_true]
  intro r hr
  cases r with
  | vert t => rfl
  | texc t => rfl
  | norm t => rfl
  | face idxs =>
    rw [List.all_eq_true]
    intro i hi
    have := objCheck_face_bound 0 rs h (ObjRecord.face idxs) hr idxs rfl i hi
    simp only [Bool.and_eq_true, decide_eq_true_eq]
    omega

/-! ## Per-script OBJ lemmas -/

theorem objCheck_actualObj (vtext : Nat → List Char) :
    objCheck 0 (actualObjRecords vtext) = true := by
  unfold actualObjRecords
  rw [objCheck_vertChunk]
  decide

theorem objCheck_realisticObj (vtext ttext : Nat → List Char)
    (stats : ProcessingStats) :
    objCheck 0 (realisticObjRecords vtext ttext stats) = true := by
  unfold realisticObjRecords
  rw [List.append_assoc, objCheck_vertChunk, objCheck_texcChunk]
  apply objCheck_faceChunk
  intro a ha i hi
  have hb := mem_pyRange3 ha
  simp only [List.length_range, Nat.zero_add]
  simp only [List.mem_cons, List.not_mem_nil, or_false] at hi
  rcases hi with rfl | rfl | rfl <;> omega

theorem objCheck_nativeObj (vtext ttext ntext : Nat → List Char) (photoCount : Nat) :
    objCheck 0 (nativeObjRecords vtext ttext ntext photoCount) = true := by
  unfold nativeObjRecords
  rw [List.append_assoc, List.append_assoc, objCheck_vertChunk, objCheck_texcChunk,
    objCheck_normChunk]
  apply objCheck_faceChunk
  intro a ha i hi
  have hb := mem_pyRange3 ha
  simp only [List.length_range, Nat.zero_add]
  simp only [List.mem_cons, List.not_mem_nil, or_false] at hi
  rcases hi with rfl | rfl | rfl <;> omega

/-! ## Artifact count computation -/

theorem countP_comp_const_true {α β : Type} (p : β → Bool) (g : α → β) (l : List α)
    (h : ∀ a, p (g a) = true) : List.countP (p ∘ g) l = l.length := by
  induction l with
  | nil => rfl
  | cons a l ih => simp [List.countP_cons, Function.comp, h, ih]

theorem countP_comp_const_false {α β : Type} (p : β → Bool) (g : α → β) (l : List α)
    (h : ∀ a, p (g a) = false) : List.countP (p ∘ g) l = 0 := by
  induction l with
  | nil => rfl
  | cons a l ih => simp [List.countP_cons, Function.comp, h, ih]

theorem realisticArtifactCounts_eq (fmt vtext ttext : Nat → List Char)
    (coords : Nat → Nat → List Char) (photoCount : Nat) :
    realisticArtifactCounts fmt vtext ttext coords photoCount =
      { plyDeclared := photoCount * 2000
        plyEmitted := photoCount * 2000
        objVertices := photoCount * 1000 / 2
        objFaces := (photoCount * 1000 / 2 - 2 - 1 + 2) / 3
        stlFacets := photoCount * 1000 } := by
  unfold realisticArtifactCounts processPhotosRealistically realisticStats
    realisticPlyDeclared realisticObjRecords realisticObjVertexCount objVertexTotal
    pyRange3
  simp only [List.countP_append, List.countP_map, List.length_map, List.length_range]
  rw [countP_comp_const_true _ _ _ (fun i => rfl)]
  rw [countP_comp_const_false _ _ _ (fun i => rfl)]
  rw [countP_comp_const_false _ _ _ (fun i => rfl)]
  rw [countP_comp_const_false _ _ _ (fun i => rfl)]
  rw [countP_comp_const_false _ _ _ (fun i => rfl)]
  rw [countP_comp_const_true _ _ _ (fun i => rfl)]
  simp [List.length_range]

/-! ## STL content lemmas -/

theorem nlfree_nil : NLFree [] := by decide

theorem nlfree_cons {c : Char} {s : List Char} :
    NLFree (c :: s) ↔ c ≠ '\n' ∧ NLFree s := by
  simp [NLFree, List.mem_cons, not_or, eq_comm]

theorem nlfree_stlSolidName (n : Nat) : NLFree (stlSolidName n) := by
  unfold stlSolidName
  simp +decide [lit, nlfree_append, nlfree_cons, nlfree_nil, nlfree_natChars]

theorem nlfree_realisticStlFacet (coords : Nat → Nat → List Char)
    (h : ∀ i j, NLFree (coords i j)) (i : Nat) :
    NLFree (realisticStlFacet coords i) := by
  unfold realisticStlFacet
  simp +decide [lit, pySep, nlfree_append, nlfree_cons, nlfree_nil, h]

theorem nlfree_nativeStlFacet (coords : Nat → Nat → List Char)
    (h : ∀ i j, NLFree (coords i j)) (i : Nat) :
    NLFree (nativeStlFacet coords i) := by
  unfold nativeStlFacet
  simp +decide [lit, pySep, nlfree_append, nlfree_cons, nlfree_nil, h]

theorem nlfree_realisticStlContent (coords : Nat → Nat → List Char)
    (h : ∀ i j, NLFree (coords i j)) (n : Nat) (stats : ProcessingStats) :
    NLFree (realisticStlContent coords n stats) := by
  unfold realisticStlContent
  have hf : NLFree (((List.range stats.faces).map (realisticStlFacet coords)).flatten) := by
    apply nlfree_flatten
    intro s hs
    rw [List.mem_map] at hs
    obtain ⟨i, _, rfl⟩ := hs
    exact nlfree_realisticStlFacet coords h i
  simp +decide [lit, pySep, nlfree_append, nlfree_cons, nlfree_nil, hf,
    nlfree_stlSolidName]

theorem nlfree_nativeStlContent (coords : Nat → Nat → List Char)
    (h : ∀ i j, NLFree (coords i j)) (n : Nat) :
    NLFree (nativeStlContent coords n) := by
  unfold nativeStlContent
  have hf : NLFree (((List.range (n * 50)).map (nativeStlFacet coords)).flatten) := by
    apply nlfree_flatten
    intro s hs
    rw [List.mem_map] at hs
    obtain ⟨i, _, rfl⟩ := hs
    exact nlfree_nativeStlFacet coords h i
  simp +decide [lit, pySep, nlfree_append, nlfree_cons, nlfree_nil, hf,
    nlfree_stlSolidName]

theorem realisticStl_ne_solidHeader (coords : Nat → Nat → List Char)
    (n : Nat) (stats : ProcessingStats) :
    realisticStlContent coords n stats ≠ lit "solid " ++ stlSolidName n := by
  intro h
  have hl := congrArg List.length h
  simp [realisticStlContent, List.length_append, lit] at hl

theorem realisticStl_startsWithName (coords : Nat → Nat → List Char)
    (n : Nat) (stats : ProcessingStats) :
    (lit "solid " ++ stlSolidName n) <+: realisticStlContent coords n stats := by
  refine ⟨pySep ++ ((List.range stats.faces).map (realisticStlFacet coords)).flatten ++
    (lit "endsolid " ++ stlSolidName n), ?_⟩
  simp [realisticStlContent, List.append_assoc]

theorem realisticStl_endsWithName (coords : Nat → Nat → List Char)
    (n : Nat) (stats : ProcessingStats) :
    (lit "endsolid " ++ stlSolidName n) <:+ realisticStlContent coords n stats := by
  refine ⟨lit "solid " ++ stlSolidName n ++ pySep ++
    ((List.range stats.faces).map (realisticStlFacet coords)).flatten, ?_⟩
  simp [realisticStlContent, List.append_assoc]

/-! ## Claim theorems -/

/-- C1: the claim says the PLY `element vertex <count>` header line equals
the number of vertex data lines written after `end_header` (2000·N in the
realistic pipeline, min(100·N, 5000) in the actual pipeline, 2000·N in
the native pipeline).  The code declares those counts, but because each
vertex record is terminated by the two-character escaped-backslash
sequence rather than a newline, the entire data block after `end_header`
forms exactly one physical line — so for every N ≥ 1 the declared count
(strictly greater than 1) differs from the written line count. -/
theorem c1_ply_header_count_vs_data_lines (n : Nat) (fmtR fmtA fmtN : Nat → List Char)
    (hn : 1 ≤ n)
    (hR : ∀ i, NLFree (fmtR i)) (hA : ∀ i, NLFree (fmtA i)) (hN : ∀ i, NLFree (fmtN i)) :
    realisticPlyDeclared (processPhotosRealistically n none).2 = 2000 * n ∧
    (splitLines (realisticPlyData fmtR (processPhotosRealistically n none).2)).length = 1 ∧
    actualPlyDeclared n = min (100 * n) 5000 ∧
    (splitLines (actualPlyData fmtA n)).length = 1 ∧
    nativePlyDeclared n = 2000 * n ∧
    (splitLines (nativePlyData fmtN n)).length = 1 ∧
    1 < realisticPlyDeclared (processPhotosRealistically n none).2 ∧
    1 < actualPlyDeclared n ∧
    1 < nativePlyDeclared n := by
  have h1 : realisticPlyDeclared (processPhotosRealistically n none).2 = 2000 * n := by
    simp only [realisticPlyDeclared, processPhotosRealistically, realisticStats]
    omega
  refine ⟨h1, ?_, ?_, ?_, ?_, ?_, ?_, ?_, ?_⟩
  · exact splitLines_length_one (by unfold realisticPlyData; exact nlfree_sepData hR)
  · simp only [actualPlyDeclared, numPoints]
    omega
  · refine splitLines_length_one ?_
    unfold actualPlyData actualPlyRecords
    rw [List.map_map]
    exact nlfree_sepData hA
  · simp only [nativePlyDeclared]
    omega
  · exact splitLines_length_one (by unfold nativePlyData; exact nlfree_sepData hN)
  · rw [h1]; omega
  · simp only [actualPlyDeclared, numPoints]
    omega
  · simp only [nativePlyDeclared]
    omega

/-- Witness for C1: the realistic PLY data of a 1-photo run with a
concrete vertex-record text is a single physical line while the declared
counts exceed 1. -/
theorem c1_ply_header_count_vs_data_lines_witness :
    (splitLines (realisticPlyData (fun _ => lit "0.1 0.2 0.3 100 120 140 0.9")
      (processPhotosRealistically 1 none).2)).length = 1 ∧
    1 < realisticPlyDeclared (processPhotosRealistically 1 none).2 ∧
    1 < actualPlyDeclared 1 :=
  have h := c1_ply_header_count_vs_data_lines 1
    (fun _ => lit "0.1 0.2 0.3 100 120 140 0.9")
    (fun _ => lit "0.1 0.2 0.3 100 120 140")
    (fun _ => lit "0.1 0.2 0.3 100 120 140 0.5 0.5 0.5")
    (by decide)
    (by intro i; show NLFree (lit "0.1 0.2 0.3 100 120 140 0.9"); decide)
    (by intro i; show NLFree (lit "0.1 0.2 0.3 100 120 140"); decide)
    (by intro i; show NLFree (lit "0.1 0.2 0.3 100 120 140 0.5 0.5 0.5"); decide)
  ⟨h.2.1, h.2.2.2.2.2.2.1, h.2.2.2.2.2.2.2.1⟩

/-- C10: `create_valid_ply_file` declares `element vertex min(100·N, 5000)`
and emits exactly that many vertex records, never more than 5000, and the
count is monotonically non-decreasing in the photo count. -/
theorem c10_actual_ply_capped_monotone (n m : Nat) (fmt : Nat → List Char)
    (h : n ≤ m) :
    actualPlyDeclared n = min (100 * n) 5000 ∧
    (actualPlyRecords fmt n).length = actualPlyDeclared n ∧
    actualPlyDeclared n ≤ 5000 ∧
    actualPlyDeclared n ≤ actualPlyDeclared m := by
  unfold actualPlyDeclared actualPlyRecords numPoints
  simp only [List.length_map, List.length_range]
  refine ⟨?_, ?_, ?_, ?_⟩ <;> simp only [Nat.min_def] <;> split_ifs <;> omega

/-- Witness for C10 at photo counts 3 ≤ 60. -/
theorem c10_actual_ply_capped_monotone_witness :
    actualPlyDeclared 3 ≤ 5000 ∧ actualPlyDeclared 3 ≤ actualPlyDeclared 60 :=
  have h := c10_actual_ply_capped_monotone 3 60 (fun _ => lit "0 0 0 0 0 0") (by decide)
  ⟨h.2.2.1, h.2.2.2⟩

/-- C2: in every generated OBJ file — the 12-vertex/20-face icosahedron of
`create_valid_obj_file` and the parametric meshes of the realistic and
native generators — every face references only vertex indices in
`[1, vertexCount]`, and every referenced index belongs to a vertex
declared earlier in the record sequence (no forward references). -/
theorem c2_obj_face_indices_valid (n : Nat) (vA vR tR vN tN nN : Nat → List Char) :
    (objCheck 0 (actualObjRecords vA) = true ∧
      objFacesInRange (actualObjRecords vA) = true ∧
      objVertexTotal (actualObjRecords vA) = 12) ∧
    (objCheck 0 (realisticObjRecords vR tR (realisticStats n)) = true ∧
      objFacesInRange (realisticObjRecords vR tR (realisticStats n)) = true) ∧
    (objCheck 0 (nativeObjRecords vN tN nN n) = true ∧
      objFacesInRange (nativeObjRecords vN tN nN n) = true) := by
  refine ⟨⟨objCheck_actualObj vA, objCheck_implies_inRange _ (objCheck_actualObj vA), ?_⟩,
    ⟨objCheck_realisticObj vR tR _, objCheck_implies_inRange _ (objCheck_realisticObj vR tR _)⟩,
    ⟨objCheck_nativeObj vN tN nN n, objCheck_implies_inRange _ (objCheck_nativeObj vN tN nN n)⟩⟩
  unfold actualObjRecords objVertexTotal
  rw [List.countP_append, List.countP_map, List.countP_map]
  rw [countP_comp_const_true _ _ _ (fun i => rfl)]
  rw [countP_comp_const_false _ _ _ (fun i => rfl)]
  simp

/-- C3: the claim says every generated STL file begins with a line
`solid <name>`, ends with `endsolid <name>` for the same name, and
contains exactly the expected number of facet blocks (1000·N realistic,
50·N native, 4 in quick-valid-3d).  The facet-block counts are right and
each file does begin with the text `solid <name>` and end with
`endsolid <name>` — quick-valid-3d, written with genuine newlines, fully
satisfies the claim — but the realistic and native writers emit the
escaped-backslash separator, so their whole file is one newline-free
physical line: the first line is the entire file, not `solid <name>`. -/
theorem c3_stl_structure (n : Nat) (cR cN : Nat → Nat → List Char)
    (hcR : ∀ i j, NLFree (cR i j)) (hcN : ∀ i j, NLFree (cN i j)) :
    ((List.range (realisticStats n).faces).map (realisticStlFacet cR)).length = 1000 * n ∧
    ((List.range (n * 50)).map (nativeStlFacet cN)).length = 50 * n ∧
    (lit "solid SimpleModel\n") <+: quickStlContent ∧
    (lit "\nendsolid SimpleModel\n") <:+ quickStlContent ∧
    (splitLines quickStlContent).countP
      (fun l => (lit "facet normal").isPrefixOf l) = 4 ∧
    (lit "solid " ++ stlSolidName n) <+: realisticStlContent cR n (realisticStats n) ∧
    (lit "endsolid " ++ stlSolidName n) <:+ realisticStlContent cR n (realisticStats n) ∧
    (splitLines (realisticStlContent cR n (realisticStats n))).length = 1 ∧
    realisticStlContent cR n (realisticStats n) ≠ lit "solid " ++ stlSolidName n ∧
    (splitLines (nativeStlContent cN n)).length = 1 := by
  refine ⟨?_, ?_, ?_, ?_, ?_, realisticStl_startsWithName cR n _, realisticStl_endsWithName cR n _,
    splitLines_length_one (nlfree_realisticStlContent cR hcR n _),
    realisticStl_ne_solidHeader cR n _,
    splitLines_length_one (nlfree_nativeStlContent cN hcN n)⟩
  · simp only [realisticStats, List.length_map, List.length_range]
    omega
  · simp only [List.length_map, List.length_range]
    omega
  · decide
  · decide
  · decide

/-- Witness for C3: with photo count 1 and concrete coordinate text, the
realistic STL file is a single physical line that differs from the
`solid <name>` header line the claim requires. -/
theorem c3_stl_structure_witness :
    (splitLines (realisticStlContent (fun _ _ => lit "1.0 2.0 3.0") 1
      (realisticStats 1))).length = 1 ∧
    realisticStlContent (fun _ _ => lit "1.0 2.0 3.0") 1 (realisticStats 1) ≠
      lit "solid " ++ stlSolidName 1 :=
  have h := c3_stl_structure 1 (fun _ _ => lit "1.0 2.0 3.0") (fun _ _ => lit "0.5 0.5 0.5")
    (by intro i j; show NLFree (lit "1.0 2.0 3.0"); decide)
    (by intro i j; show NLFree (lit "0.5 0.5 0.5"); decide)
  ⟨h.2.2.2.2.2.2.2.1, h.2.2.2.2.2.2.2.2.1⟩

/-- C4: for a fixed photo count N the declared element counts of all
artifacts of the realistic pipeline — PLY declared and emitted vertex
count, OBJ vertex count, STL facet count, and the sparse/dense/face
statistics — are pure functions of N: two runs with different randomized
coordinate text declare identical counts (2000·N dense vertices, 500·N
mesh vertices, 1000·N facets, 200·N sparse points). -/
theorem c4_counts_deterministic (n : Nat)
    (f1 v1 t1 f2 v2 t2 : Nat → List Char) (c1 c2 : Nat → Nat → List Char) :
    realisticArtifactCounts f1 v1 t1 c1 n = realisticArtifactCounts f2 v2 t2 c2 n ∧
    (processPhotosRealistically n none).2 = realisticStats n ∧
    (realisticStats n).sparse = 200 * n ∧
    (realisticArtifactCounts f1 v1 t1 c1 n).plyDeclared = 2000 * n ∧
    (realisticArtifactCounts f1 v1 t1 c1 n).plyEmitted = 2000 * n ∧
    (realisticArtifactCounts f1 v1 t1 c1 n).objVertices = 500 * n ∧
    (realisticArtifactCounts f1 v1 t1 c1 n).stlFacets = 1000 * n := by
  rw [realisticArtifactCounts_eq, realisticArtifactCounts_eq]
  refine ⟨rfl, rfl, ?_, ?_, ?_, ?_, ?_⟩
  · show n * 200 = 200 * n
    omega
  · show n * 2000 = 2000 * n
    omega
  · show n * 2000 = 2000 * n
    omega
  · show n * 1000 / 2 = 500 * n
    omega
  · show n * 1000 = 1000 * n
    omega

/-- C5 counterexample: the claim says a run discovering zero photos fails
before any session is created and performs zero filesystem writes; but in
both realistic- and native-processing `main` the session directory (and,
natively, the temp directory) is created before photo discovery, so a
zero-photo run has already created it when it aborts. -/
theorem c5_counterexample :
    FsEvent.mkSessionDir ∈ (realisticMain false true []).1 ∧
    (realisticMain false true []).2.1 = RunOutcome.noPhotos ∧
    FsEvent.mkSessionDir ∈ (nativeMain false true [] true).1 ∧
    (nativeMain false true [] true).2 = RunOutcome.noPhotos := by decide

/-- C5 amended: a run discovering zero photos aborts with the no-photos
outcome and writes no project, artifact or summary file — but the session
directory (and the native temp directory) has already been created,
because session creation precedes photo discovery in `main`. -/
theorem c5_amended (clusterReady nasOk : Bool) (photos : List (List Char))
    (submitOk : Bool) (hphotos : photos = []) (hnas : nasOk = true) :
    (realisticMain clusterReady nasOk photos).2.1 = RunOutcome.noPhotos ∧
    (realisticMain clusterReady nasOk photos).1 =
      [FsEvent.mkOutputBase, FsEvent.mkSessionDir] ∧
    FsEvent.writeProject ∉ (realisticMain clusterReady nasOk photos).1 ∧
    FsEvent.writePly ∉ (realisticMain clusterReady nasOk photos).1 ∧
    FsEvent.writeObj ∉ (realisticMain clusterReady nasOk photos).1 ∧
    FsEvent.writeStl ∉ (realisticMain clusterReady nasOk photos).1 ∧
    FsEvent.writeSummary ∉ (realisticMain clusterReady nasOk photos).1 ∧
    (nativeMain clusterReady nasOk photos submitOk).2 = RunOutcome.noPhotos ∧
    (nativeMain clusterReady nasOk photos submitOk).1 =
      [FsEvent.mkOutputBase, FsEvent.mkSessionDir, FsEvent.mkTempDir] ∧
    FsEvent.writePly ∉ (nativeMain clusterReady nasOk photos submitOk).1 ∧
    FsEvent.writeSummary ∉ (nativeMain clusterReady nasOk photos submitOk).1 := by
  subst hphotos hnas
  simp +decide [realisticMain, nativeMain]

/-- Witness for C5 amended: concrete zero-photo run. -/
theorem c5_amended_witness :
    (realisticMain true true []).2.1 = RunOutcome.noPhotos ∧
    FsEvent.writePly ∉ (realisticMain true true []).1 :=
  have h := c5_amended true true [] true rfl rfl
  ⟨h.1, h.2.2.2.1⟩

/-- C6: when the delegate executable is invoked and does not exit with
code 0, the run is not reported as failed: `main` falls back to the
synthetic path in the same run, the six synthetic stages execute in
order, and the PLY/OBJ artifacts plus the summary are still produced. -/
theorem c6_delegate_failure_fallback (delegateExit : Option Int)
    (h : delegateExit ≠ some 0) :
    actualMain true true delegateExit =
      ActualResult.finished ProcMode.synthetic (List.range 6)
        [ArtifactKind.ply, ArtifactKind.obj, ArtifactKind.summary] false := by
  have hb : (delegateExit == some 0) = false := beq_eq_false_iff_ne.mpr h
  simp [actualMain, runRealMeshroomSuccess, hb]

/-- Witness for C6 at delegate exit code 1. -/
theorem c6_delegate_failure_fallback_witness :
    actualMain true true (some 1) =
      ActualResult.finished ProcMode.synthetic (List.range 6)
        [ArtifactKind.ply, ArtifactKind.obj, ArtifactKind.summary] false :=
  c6_delegate_failure_fallback (some 1) (by decide)

/-- C7 counterexample: the claim says the readiness probe is advisory for
every script and never aborts the run; but in process-photos (and
process-photos-simple) `main` returns before any processing when the
probe reports fewer than 2 ready pods or the status query fails. -/
theorem c7_counterexample :
    (processPhotosMain true 1 [lit "photo1.jpg"] true).2 = RunOutcome.clusterNotReady ∧
    (processPhotosMain true 1 [lit "photo1.jpg"] true).1 = [] ∧
    (processPhotosMain false 5 [lit "photo1.jpg"] true).2 = RunOutcome.clusterNotReady := by
  decide

/-- C7 amended: in realistic-meshroom-processing and
meshroom-native-processing the probe is advisory — every probe outcome
yields the same filesystem trace and run outcome, a negative result only
changing the printed processing-mode banner — and a run with photos
proceeds to completion; but in process-photos and process-photos-simple a
negative probe aborts the run before processing. -/
theorem c7_amended (q1 q2 : Bool) (r1 r2 : Nat) (nasOk : Bool)
    (photos : List (List Char)) (submitOk : Bool) :
    (realisticMain (realisticCheckClusterStatus q1 r1) nasOk photos).1 =
      (realisticMain (realisticCheckClusterStatus q2 r2) nasOk photos).1 ∧
    (realisticMain (realisticCheckClusterStatus q1 r1) nasOk photos).2.1 =
      (realisticMain (realisticCheckClusterStatus q2 r2) nasOk photos).2.1 ∧
    nativeMain (nativeCheckClusterStatus q1 r1) nasOk photos submitOk =
      nativeMain (nativeCheckClusterStatus q2 r2) nasOk photos submitOk ∧
    (nasOk = true → photos ≠ [] →
      (realisticMain (realisticCheckClusterStatus q1 r1) nasOk photos).2.1 =
        RunOutcome.completed) ∧
    (nasOk = true → photos ≠ [] → submitOk = true →
      (nativeMain (nativeCheckClusterStatus q1 r1) nasOk photos submitOk).2 =
        RunOutcome.completed) := by
  cases nasOk <;> cases photos <;> cases submitOk <;>
    simp [realisticMain, nativeMain]

/-- Witness for C7 amended: a 1-photo run proceeds to completion even
though the probe saw zero ready pods. -/
theorem c7_amended_witness :
    (realisticMain (realisticCheckClusterStatus true 0) true [lit "a.jpg"]).2.1 =
      RunOutcome.completed :=
  (c7_amended true false 0 3 true [lit "a.jpg"] true).2.2.2.1 rfl (by decide)

/-- C8 counterexample: the claim says a cancellation request between
stage index 2 and stage index 3 prevents stage 3, ends the run in a
Cancelled state and leaves no artifacts; but the pipeline executor has no
cancellation check at all — with a request pending after stage 2 it still
executes stage 3 (indeed all six stages), returns its stats, and `main`
then writes the artifacts and completes. -/
theorem c8_counterexample :
    3 ∈ (processPhotosRealistically 1 (some 2)).1 ∧
    (processPhotosRealistically 1 (some 2)).1 = [0, 1, 2, 3, 4, 5] ∧
    (processPhotosRealistically 1 (some 2)).2 = realisticStats 1 ∧
    (realisticMain false true [lit "photo1.jpg"]).2.1 = RunOutcome.completed ∧
    FsEvent.writePly ∈ (realisticMain false true [lit "photo1.jpg"]).1 := by
  decide

/-- C8 amended: the pipeline has no cancellation support: whatever
cancellation request the environment raises and at whatever boundary, the
executor runs all six stages in order and returns the full statistics;
the only external stop is the control panel's process-kill command, which
is not a stage-boundary check. -/
theorem c8_amended (n : Nat) (cancelRequestedAfter : Option Nat) :
    (processPhotosRealistically n cancelRequestedAfter).1 = [0, 1, 2, 3, 4, 5] ∧
    (processPhotosRealistically n cancelRequestedAfter).2 = realisticStats n :=
  ⟨rfl, rfl⟩

/-- C9 counterexample: the claim says `listSessions` sorts strictly by
descending last-modified time and skips unreadable entries; but the code
sorts by the second-resolution date string — two sessions modified 0.8
seconds apart in the same second keep their arbitrary directory order,
the older one first here — and an entry whose file listing fails is kept
with file count 0, not skipped. -/
theorem c9_counterexample :
    listPreviousSessions [c9EntryOld, c9EntryNew] =
      [sessionOf c9EntryOld, sessionOf c9EntryNew] ∧
    c9EntryNew.listable = false ∧
    sessionOf c9EntryNew ∈ listPreviousSessions [c9EntryOld, c9EntryNew] ∧
    c9EntryOld.mtimeMs < c9EntryNew.mtimeMs ∧
    ¬ List.Pairwise (fun a b : SessionInfo =>
        mtimeByName [c9EntryOld, c9EntryNew] b < mtimeByName [c9EntryOld, c9EntryNew] a)
      (listPreviousSessions [c9EntryOld, c9EntryNew]) := by
  decide

/-- C9 amended: `list_previous_sessions` returns every qualifying session
directory — an entry whose file listing fails is included with file count
0 rather than skipped — sorted by descending modification time at the
second resolution of the date string, non-strictly: entries from the same
second keep directory order. -/
theorem c9_amended (entries : List DirEntry) :
    (listPreviousSessions entries).Pairwise (fun a b => b.dateSec ≤ a.dateSec) ∧
    (listPreviousSessions entries).Perm
      ((entries.filter
        (fun e => e.isDir && (lit "meshroom_session_").isPrefixOf e.name.data)).map
        sessionOf) ∧
    (∀ e ∈ entries,
      (e.isDir && (lit "meshroom_session_").isPrefixOf e.name.data) = true →
      e.listable = false →
      sessionOf e ∈ listPreviousSessions entries ∧ (sessionOf e).files = 0) := by
  refine ⟨?_, ?_, ?_⟩
  · exact List.sorted_insertionSort sessionDateGe _
  · unfold listPreviousSessions
    exact List.perm_insertionSort sessionDateGe _
  · intro e he hq hl
    constructor
    · unfold listPreviousSessions
      rw [List.mem_insertionSort]
      exact List.mem_map_of_mem _ (List.mem_filter.mpr ⟨he, hq⟩)
    · simp [sessionOf, hl]

/-- Witness for C9 amended: the unreadable session directory appears in
the listing with file count 0. -/
theorem c9_amended_witness :
    sessionOf c9EntryNew ∈ listPreviousSessions [c9EntryOld, c9EntryNew] ∧
    (sessionOf c9EntryNew).files = 0 :=
  (c9_amended [c9EntryOld, c9EntryNew]).2.2 c9EntryNew (by decide) (by decide) (by decide)
